import Mathlib

/-
Verification of the metrics-generator repository.

The development shallowly embeds the Go code of the repository:

- the `limits.Config` configuration store (files `internal/limits/config.go`
  across the revisions present in the sources): a record of integer fields,
  whose setters validate and either reject (returning an error message and
  the unchanged store) or commit the new values;
- the parsing helpers of `internal/api/parse.go`;
- the HTTP handlers for the duration interval of `internal/api/handler.go`,
  modelled as functions from a request body to a status code, a response
  body and the updated store;
- the simulation loop of `internal/metrics/metrics.go`, modelled as a step
  function per tick, driven by one pseudo-random draw per call to
  `rand.Intn`;
- the graceful runtime `internal/httprun/httprun.go`, modelled on the
  outcome of the race between serve completion and context cancellation;
- the error path of `api.Server.Run` in `internal/api/api.go`.

Go `int` values are modelled as `Int`: no claim exercises 64-bit overflow.
Go errors are modelled as `Option` values (`none` is the `nil` error).
-/

namespace MetricsGenerator

/-- Go error values that matter to the development: the sentinel
`http.ErrServerClosed`, the `context.Canceled` error, and any other error
identified by its message. -/
inductive GoError where
  | serverClosed : GoError
  | canceled : GoError
  | mk (msg : String) : GoError
deriving DecidableEq, Repr

/-- The configuration store `limits.Config`. The fields merge the revisions
present in the sources: `minDuration` and `maxDuration` are the duration
interval of the read/write-mutex revision, `maxDuration` is also the field
read by `MaxDuration` in the atomic revision, and `errorsPercentage` is
common to both. The request-rate field only affects the sleep between ticks
of the simulation loop, which is not modelled (the tick sequence is
abstracted by an explicit list of ticks), so it is omitted. The mutex and
the atomics only serialize field access and are not modelled: every claim
is about sequential calls. -/
structure Config where
  minDuration : Int
  maxDuration : Int
  errorsPercentage : Int
deriving DecidableEq, Repr

/-- The Go zero value of `limits.Config`: every field is zero. -/
def Config.zeroValue : Config :=
  { minDuration := 0, maxDuration := 0, errorsPercentage := 0 }

/-- Embeds `Config.DurationInterval`: returns the current pair
`(minDuration, maxDuration)`. -/
def Config.DurationInterval (c : Config) : Int × Int :=
  (c.minDuration, c.maxDuration)

/-- Embeds `Config.SetDurationInterval`: validates the pair and either
returns an error with the store untouched or commits both fields. The
error messages, including the typo in the third one, are those of the
source. -/
def Config.SetDurationInterval (c : Config) (minDuration maxDuration : Int) :
    Option String × Config :=
  if minDuration ≤ 0 then
    (some "minimum duration is less than or equal to zero", c)
  else if maxDuration ≤ 0 then
    (some "maximum duration is less than or equal to zero", c)
  else if maxDuration < minDuration then
    (some "maximum duration is less then or equal to minimum duration", c)
  else
    (none, { c with minDuration := minDuration, maxDuration := maxDuration })

/-- Embeds `Config.MaxDuration` of the atomic revision: returns the stored
maximum duration. -/
def Config.MaxDuration (c : Config) : Int :=
  c.maxDuration

/-- Embeds `Config.SetMaxDuration` of the atomic revision: rejects only
negative values, in particular it accepts zero. -/
def Config.SetMaxDuration (c : Config) (maxDuration : Int) :
    Option String × Config :=
  if maxDuration < 0 then
    (some "value is less than zero", c)
  else
    (none, { c with maxDuration := maxDuration })

/-- Embeds `Config.ErrorsPercentage`: returns the stored percentage. -/
def Config.ErrorsPercentage (c : Config) : Int :=
  c.errorsPercentage

/-- Embeds `Config.SetErrorsPercentage`: rejects values outside `[0, 100]`,
otherwise commits. Identical in both revisions of the store. -/
def Config.SetErrorsPercentage (c : Config) (errorsPercentage : Int) :
    Option String × Config :=
  if errorsPercentage < 0 ∨ errorsPercentage > 100 then
    (some "value is not a valid percentage", c)
  else
    (none, { c with errorsPercentage := errorsPercentage })

/-- The invariant of the store stated by the specification: both bounds of
the duration interval are positive, the interval is ordered, and the
percentage lies within `[0, 100]`. -/
def Config.Invariant (c : Config) : Prop :=
  0 < c.minDuration ∧ c.minDuration ≤ c.maxDuration ∧
    0 ≤ c.errorsPercentage ∧ c.errorsPercentage ≤ 100

instance (c : Config) : Decidable c.Invariant := by
  unfold Config.Invariant
  infer_instance

/-- Value of a list of decimal digit characters, accumulator style; `none`
if a non-digit character occurs. Helper for the model of `strconv.Atoi`. -/
def digitsVal : List Char → Nat → Option Nat
  | [], acc => some acc
  | ch :: rest, acc =>
    if ch.isDigit then digitsVal rest (acc * 10 + (ch.toNat - 48)) else none

/-- Models `strconv.Atoi` from the Go standard library: an optional leading
sign followed by at least one decimal digit; anything else is an error
(`none`). Overflow of the 64-bit Go `int` is not modelled: no claim
exercises it. -/
def atoi (s : String) : Option Int :=
  match s.toList with
  | [] => none
  | ch :: rest =>
    if ch = Char.ofNat 43 then
      if rest = [] then none else (digitsVal rest 0).map Int.ofNat
    else if ch = Char.ofNat 45 then
      if rest = [] then none else (digitsVal rest 0).map (fun n => -(n : Int))
    else
      (digitsVal (ch :: rest) 0).map Int.ofNat

/-- Whitespace trimmed by `strings.TrimSpace`; the ASCII white space
characters suffice for this development. -/
def isSpaceChar (ch : Char) : Bool :=
  ch = Char.ofNat 32 ∨ ch = Char.ofNat 9 ∨ ch = Char.ofNat 10 ∨
    ch = Char.ofNat 13 ∨ ch = Char.ofNat 11 ∨ ch = Char.ofNat 12

/-- Models `strings.TrimSpace`: drop white space from both ends. -/
def trimSpace (s : String) : String :=
  String.mk (((s.toList.dropWhile isSpaceChar).reverse.dropWhile isSpaceChar).reverse)

/-- Splitting a character list at every comma; models `strings.Split` with
a one-character separator, on the characters of the string. The empty
list yields one empty group, as `strings.Split` yields one empty string. -/
def splitAtCommas : List Char → List (List Char)
  | [] => [[]]
  | ch :: rest =>
    if ch = Char.ofNat 44 then
      [] :: splitAtCommas rest
    else
      match splitAtCommas rest with
      | [] => [[ch]]
      | group :: groups => (ch :: group) :: groups

/-- Models `strings.Split(value, ",")`. -/
def splitOnComma (value : String) : List String :=
  (splitAtCommas value.toList).map String.mk

/-- Embeds `parseInt` of `internal/api/parse.go`: trim surrounding
whitespace, then `strconv.Atoi`; a failure is reported as the message
used by the source. -/
def parseInt (value : String) : Except String Int :=
  match atoi (trimSpace value) with
  | none => Except.error "not a number"
  | some parsed => Except.ok parsed

/-- Embeds `parseDuration` of `internal/api/parse.go` (called
`parseDurationInterval` by the handler revision that uses it): split the
body on a comma, require exactly two parts, and parse each part as an
integer. -/
def parseDuration (value : String) : Except String (Int × Int) :=
  match splitOnComma value with
  | [first, second] =>
    match parseInt first with
    | Except.error _ => Except.error "minimum is not a number"
    | Except.ok minPart =>
      match parseInt second with
      | Except.error _ => Except.error "maximum is not a number"
      | Except.ok maxPart => Except.ok (minPart, maxPart)
  | _ => Except.error "not a pair of number"

/-- Result of reading the request body with `io.ReadAll`: either the bytes
read, or a read error with its message. -/
inductive ReadBody where
  | ok (data : String) : ReadBody
  | readError (msg : String) : ReadBody
deriving DecidableEq, Repr

/-- Embeds `Handler.handleGetDurationInterval`: renders the current
interval as the body of a `200` response, in the format of
`fmt.Fprintf` with the verb string percent-d comma percent-d newline. -/
def handleGetDurationInterval (c : Config) : Nat × String :=
  let pair := c.DurationInterval
  (200, toString pair.1 ++ "," ++ toString pair.2 ++ "\n")

/-- Embeds `Handler.handleSetDurationInterval`: a body read failure is a
`500`, a parse failure or a store rejection is a `400` with the store
untouched, and a valid pair is committed with a `200 OK`. The result is
the status code, the response body and the store after the call. -/
def handleSetDurationInterval (c : Config) (body : ReadBody) :
    Nat × String × Config :=
  match body with
  | ReadBody.readError msg => (500, "read body: " ++ msg ++ "\n", c)
  | ReadBody.ok data =>
    match parseDuration data with
    | Except.error e => (400, "parse duration interval: " ++ e ++ "\n", c)
    | Except.ok (minPart, maxPart) =>
      match c.SetDurationInterval minPart maxPart with
      | (some e, c1) => (400, "set duration interval: " ++ e ++ "\n", c1)
      | (none, c1) => (200, "OK\n", c1)

/-- Models one draw of `math/rand.Intn n`: Go panics when `n ≤ 0`
(modelled by `none`), otherwise the draw is a value in `[0, n)`. The
`seed` is the state of the pseudo-random source for this draw, an
arbitrary natural number reduced into range. -/
def randIntn (seed : Nat) (n : Int) : Option Int :=
  if n ≤ 0 then none else some ((seed : Int) % n)

/-- One observation of the simulation loop: the duration forwarded to the
histogram sink and whether the error counter was incremented. -/
structure Observation where
  duration : Int
  isError : Bool
deriving DecidableEq, Repr

/-- Embeds one iteration of `metrics.Generator.Run`: observe a duration of
`rand.Intn(config.MaxDuration())` and flag an error when `rand.Intn(100)`
is below the configured percentage. `none` models a panic of `rand.Intn`.
The two seeds are the states of the random source at the two draws. -/
def generatorStep (c : Config) (dSeed eSeed : Nat) : Option Observation :=
  match randIntn dSeed c.MaxDuration with
  | none => none
  | some d =>
    match randIntn eSeed 100 with
    | none => none
    | some e => some { duration := d, isError := decide (e < c.ErrorsPercentage) }

/-- Embeds `metrics.Generator.Run` over a finite list of ticks, one pair of
random seeds per tick; the context cancellation that ends the loop is
modelled by the end of the list, and the sleep between ticks is not
modelled. `none` models a panic on some tick. The configuration is read
afresh at every tick, as in the source; no concurrent mutation happens
within one run in this sequential model. -/
def generatorRun (c : Config) : List (Nat × Nat) → Option (List Observation)
  | [] => some []
  | (dSeed, eSeed) :: rest =>
    match generatorStep c dSeed eSeed with
    | none => none
    | some o => (generatorRun c rest).map (fun os => o :: os)

/-- Number of increments the error counter sink received over a list of
observations. -/
def errorsCount (obs : List Observation) : Nat :=
  obs.countP (fun o => o.isError)

/-- One invocation of `httprun.ListenAndServe` (equally, of the
`httprun.Server.run` revision), described by the outcome of its races:
whether the watcher observed context cancellation before serve completion,
the error returned by the serve call, the error returned by `Shutdown`
(consulted only when the watcher invokes it), and which of the two
goroutines sent its error on the channel first when both send. -/
structure HttprunScenario where
  cancelledBeforeServeDone : Bool
  serveResult : Option GoError
  shutdownResult : Option GoError
  serveSentFirst : Bool
deriving DecidableEq, Repr

/-- Result of one `httprun.ListenAndServe` invocation: the aggregated error
list and whether `Shutdown` was invoked. -/
structure RunOutcome where
  errors : List GoError
  shutdownInvoked : Bool
deriving DecidableEq, Repr

/-- The collection loop of `httprun.ListenAndServe`: every value received
on the errors channel is appended to the result unless it is the `nil`
error. -/
def collectErrors (sent : List (Option GoError)) : List GoError :=
  sent.filterMap id

namespace httprun

/-- Embeds `httprun.ListenAndServe`: when cancellation wins the race the
watcher invokes the graceful shutdown and the channel receives both the
serve result and the shutdown result, in either order; when serve finishes
first the watcher returns without invoking shutdown and the channel
receives only the serve result. -/
def ListenAndServe (s : HttprunScenario) : RunOutcome :=
  if s.cancelledBeforeServeDone then
    { errors :=
        collectErrors
          (if s.serveSentFirst then
            [s.serveResult, s.shutdownResult]
          else
            [s.shutdownResult, s.serveResult]),
      shutdownInvoked := true }
  else
    { errors := collectErrors [s.serveResult], shutdownInvoked := false }

end httprun

/-- Rendering of a Go error value by the `fmt` package verb percent-v,
used when an error is wrapped into another. -/
def GoError.message : GoError → String
  | GoError.serverClosed => "http: Server closed"
  | GoError.canceled => "context canceled"
  | GoError.mk msg => msg

/-- Rendering of a possibly-`nil` Go error value by `fmt`. -/
def errMessage : Option GoError → String
  | none => "<nil>"
  | some e => e.message

namespace api

/-- Embeds the error path of `api.Server.Run` (`internal/api/api.go`): any
serve error other than the `http.ErrServerClosed` sentinel is wrapped by
`fmt.Errorf` and returned; the sentinel itself is swallowed and the error
of the lifecycle context is returned instead. -/
def ServerRun (serveResult : Option GoError) (ctxErr : Option GoError) :
    Option GoError :=
  if serveResult = some GoError.serverClosed then
    ctxErr
  else
    some (GoError.mk ("listen and serve: " ++ errMessage serveResult))

end api

/-- Helper: whenever `SetDurationInterval` reports an error, the store it
returns is exactly the store it was given. -/
theorem setDurationInterval_error_unchanged (c : Config) (a b : Int)
    (m : String) (c1 : Config) (h : c.SetDurationInterval a b = (some m, c1)) :
    c1 = c := by
  unfold Config.SetDurationInterval at h
  split at h
  · exact (congrArg Prod.snd h).symm
  · split at h
    · exact (congrArg Prod.snd h).symm
    · split at h
      · exact (congrArg Prod.snd h).symm
      · exact absurd (congrArg Prod.fst h) (by simp)

/-- C5: for every pair `(min, max)` with `min > 0` and `max ≥ min`,
`SetDurationInterval` succeeds (returns the nil error) and a subsequent
`DurationInterval` read returns exactly `(min, max)`. -/
theorem setDurationInterval_roundTrip (c : Config) (mn mx : Int)
    (h1 : 0 < mn) (h2 : mn ≤ mx) :
    (c.SetDurationInterval mn mx).1 = none ∧
      ((c.SetDurationInterval mn mx).2).DurationInterval = (mn, mx) := by
  unfold Config.SetDurationInterval Config.DurationInterval
  rw [if_neg (by omega), if_neg (by omega), if_neg (by omega)]
  exact ⟨rfl, rfl⟩

/-- Witness for C5 at the concrete pair `(15, 45)`. -/
theorem setDurationInterval_roundTrip_witness :
    (Config.zeroValue.SetDurationInterval 15 45).1 = none ∧
      ((Config.zeroValue.SetDurationInterval 15 45).2).DurationInterval = (15, 45) :=
  setDurationInterval_roundTrip Config.zeroValue 15 45 (by decide) (by decide)

/-- C6: every rejected write is all-or-nothing. For every invalid pair the
setter reports an error and returns the store exactly as it was; and
whenever the request body fails to parse or parses to a pair the store
rejects, the PUT handler responds `400` and the store after the call is
exactly the store before it. -/
theorem rejectedWrite_allOrNothing (c : Config) (mn mx : Int) (body : String) :
    ((mn ≤ 0 ∨ mx ≤ 0 ∨ mx < mn) →
      (c.SetDurationInterval mn mx).1.isSome = true ∧
        (c.SetDurationInterval mn mx).2 = c) ∧
    ((∀ pmn pmx : Int, parseDuration body = Except.ok (pmn, pmx) →
        (c.SetDurationInterval pmn pmx).1.isSome = true) →
      (handleSetDurationInterval c (ReadBody.ok body)).1 = 400 ∧
        (handleSetDurationInterval c (ReadBody.ok body)).2.2 = c) := by
  constructor
  · intro hbad
    unfold Config.SetDurationInterval
    rcases hbad with hbad | hbad | hbad
    · rw [if_pos hbad]
      exact ⟨rfl, rfl⟩
    · by_cases hmn : mn ≤ 0
      · rw [if_pos hmn]
        exact ⟨rfl, rfl⟩
      · rw [if_neg hmn, if_pos hbad]
        exact ⟨rfl, rfl⟩
    · by_cases hmn : mn ≤ 0
      · rw [if_pos hmn]
        exact ⟨rfl, rfl⟩
      · by_cases hmx : mx ≤ 0
        · rw [if_neg hmn, if_pos hmx]
          exact ⟨rfl, rfl⟩
        · rw [if_neg hmn, if_neg hmx, if_pos hbad]
          exact ⟨rfl, rfl⟩
  · intro hall
    cases hp : parseDuration body with
    | error e => simp [handleSetDurationInterval, hp]
    | ok p =>
      obtain ⟨a, b⟩ := p
      have hs := hall a b hp
      cases hq : c.SetDurationInterval a b with
      | mk err c1 =>
        cases err with
        | none =>
          rw [hq] at hs
          exact absurd hs (by simp)
        | some m =>
          have hc1 : c1 = c := setDurationInterval_error_unchanged c a b m c1 hq
          simp [handleSetDurationInterval, hp, hq, hc1]

/-- Witness for C6: the invalid pair `(0, 5)` is rejected with the store
unchanged, and a PUT whose body is the unparsable string boom responds
`400` leaving the store unchanged. -/
theorem rejectedWrite_allOrNothing_witness :
    ((Config.zeroValue.SetDurationInterval 0 5).1.isSome = true ∧
      (Config.zeroValue.SetDurationInterval 0 5).2 = Config.zeroValue) ∧
    ((handleSetDurationInterval Config.zeroValue (ReadBody.ok "boom")).1 = 400 ∧
      (handleSetDurationInterval Config.zeroValue (ReadBody.ok "boom")).2.2 = Config.zeroValue) :=
  ⟨(rejectedWrite_allOrNothing Config.zeroValue 0 5 "boom").1 (Or.inl (by decide)),
   (rejectedWrite_allOrNothing Config.zeroValue 0 5 "boom").2
     (fun pmn pmx h => by
       rw [show parseDuration "boom" = Except.error "not a pair of number" from rfl] at h
       exact Except.noConfusion h)⟩

/-- C7: from any state satisfying the invariant, both setters preserve the
invariant whether they succeed or fail; no mutation makes a violating
state observable. -/
theorem setters_preserve_invariant (c : Config) (a b v : Int)
    (h : c.Invariant) :
    ((c.SetDurationInterval a b).2).Invariant ∧
      ((c.SetErrorsPercentage v).2).Invariant := by
  obtain ⟨h1, h2, h3, h4⟩ := h
  constructor
  · by_cases ha : a ≤ 0
    · simpa [Config.SetDurationInterval, ha, Config.Invariant] using ⟨h1, h2, h3, h4⟩
    · by_cases hb : b ≤ 0
      · simpa [Config.SetDurationInterval, ha, hb, Config.Invariant] using ⟨h1, h2, h3, h4⟩
      · by_cases hab : b < a
        · simpa [Config.SetDurationInterval, ha, hb, hab, Config.Invariant]
            using ⟨h1, h2, h3, h4⟩
        · simp only [Config.SetDurationInterval, if_neg ha, if_neg hb, if_neg hab,
            Config.Invariant]
          refine ⟨by omega, by omega, h3, h4⟩
  · by_cases hv : v < 0 ∨ v > 100
    · simpa [Config.SetErrorsPercentage, hv, Config.Invariant] using ⟨h1, h2, h3, h4⟩
    · simp only [Config.SetErrorsPercentage, if_neg hv, Config.Invariant]
      refine ⟨h1, h2, by omega, by omega⟩

/-- Witness for C7 at the valid state `(1, 10, 10)` with the mutations
`SetDurationInterval 15 45` and `SetErrorsPercentage 150`. -/
theorem setters_preserve_invariant_witness :
    ((Config.mk 1 10 10).SetDurationInterval 15 45).2.Invariant ∧
      ((Config.mk 1 10 10).SetErrorsPercentage 150).2.Invariant :=
  setters_preserve_invariant (Config.mk 1 10 10) 15 45 150 (by decide)

/-- C10: the early atomic revision of the store accepts a maximum duration
of zero, since `SetMaxDuration` rejects only negative values; zero is also
the value of the zero-value store. On such a store the simulation loop
calls `rand.Intn` with a non-positive argument on its very first tick and
panics (modelled by `none`). -/
theorem zeroMaxDuration_firstTick_panics (c : Config) (dSeed eSeed : Nat)
    (rest : List (Nat × Nat)) :
    (c.SetMaxDuration 0).1 = none ∧
      ((c.SetMaxDuration 0).2).MaxDuration = 0 ∧
      generatorStep ((c.SetMaxDuration 0).2) dSeed eSeed = none ∧
      generatorRun ((c.SetMaxDuration 0).2) ((dSeed, eSeed) :: rest) = none := by
  have hset : c.SetMaxDuration 0 = (none, { c with maxDuration := 0 }) := by
    unfold Config.SetMaxDuration
    rw [if_neg (by omega)]
  have hstep : generatorStep ((c.SetMaxDuration 0).2) dSeed eSeed = none := by
    rw [hset]
    unfold generatorStep randIntn Config.MaxDuration
    simp
  refine ⟨by rw [hset], by rw [hset]; rfl, hstep, ?_⟩
  unfold generatorRun
  rw [hstep]

/-- C1 counterexample: for the configuration with duration interval
`(15, 45)`, the very first tick of the simulation loop can observe the
duration `0`, which is strictly below the configured minimum (the loop
samples `rand.Intn` of the maximum only, never consulting the minimum). -/
theorem durationSample_belowMin_counterexample :
    ((Config.zeroValue.SetDurationInterval 15 45).2).DurationInterval = (15, 45) ∧
      generatorStep ((Config.zeroValue.SetDurationInterval 15 45).2) 0 0 =
        some { duration := 0, isError := false } ∧
      (0 : Int) < ((Config.zeroValue.SetDurationInterval 15 45).2).minDuration := by
  decide

/-- C1 amended: every duration sample produced by a tick of the simulation
loop lies in `[0, max)` for the configured maximum; it is not bounded
below by the configured minimum. -/
theorem durationSample_bounded (c : Config) (dSeed eSeed : Nat)
    (o : Observation) (h : generatorStep c dSeed eSeed = some o) :
    0 ≤ o.duration ∧ o.duration < c.MaxDuration := by
  unfold generatorStep randIntn at h
  by_cases hm : c.MaxDuration ≤ 0
  · rw [if_pos hm] at h
    exact absurd h (by simp)
  · rw [if_neg hm, if_neg (by omega : ¬ (100 : Int) ≤ 0)] at h
    simp only [Option.some.injEq] at h
    subst h
    exact ⟨Int.emod_nonneg _ (by omega), Int.emod_lt_of_pos _ (by omega)⟩

/-- Witness for the amended C1 at the interval `(15, 45)` and seed `7`. -/
theorem durationSample_bounded_witness :
    0 ≤ (Observation.mk 7 false).duration ∧
      (Observation.mk 7 false).duration < (Config.mk 15 45 0).MaxDuration :=
  durationSample_bounded (Config.mk 15 45 0) 7 3 (Observation.mk 7 false) (by decide)

/-- Helper: every observation produced by a run of the simulation loop had
its error flag decided by comparing one draw in `[0, 100)` against the
configured percentage. -/
theorem generatorRun_isError_bound (c : Config) (ticks : List (Nat × Nat))
    (obs : List Observation) (h : generatorRun c ticks = some obs) :
    ∀ o ∈ obs, ∃ r : Int,
      0 ≤ r ∧ r < 100 ∧ o.isError = decide (r < c.ErrorsPercentage) := by
  induction ticks generalizing obs with
  | nil =>
    unfold generatorRun at h
    simp only [Option.some.injEq] at h
    subst h
    intro o ho
    exact absurd ho (by simp)
  | cons t rest ih =>
    obtain ⟨dSeed, eSeed⟩ := t
    unfold generatorRun at h
    cases hstep : generatorStep c dSeed eSeed with
    | none =>
      rw [hstep] at h
      exact absurd h (by simp)
    | some o0 =>
      rw [hstep] at h
      cases hrest : generatorRun c rest with
      | none =>
        rw [hrest] at h
        exact absurd h (by simp)
      | some os =>
        rw [hrest] at h
        simp only [Option.map_some', Option.some.injEq] at h
        subst h
        intro o ho
        rcases List.mem_cons.mp ho with rfl | hmem
        · unfold generatorStep randIntn at hstep
          by_cases hmax : c.MaxDuration ≤ 0
          · rw [if_pos hmax] at hstep
            exact absurd hstep (by simp)
          · rw [if_neg hmax, if_neg (by omega : ¬ (100 : Int) ≤ 0)] at hstep
            simp only [Option.some.injEq] at hstep
            refine ⟨(eSeed : Int) % 100, Int.emod_nonneg _ (by omega),
              Int.emod_lt_of_pos _ (by omega), ?_⟩
            rw [← hstep]
        · exact ih os hrest o hmem

/-- C8: over any run of the simulation loop, with the percentage set to
`0` the error counter is never incremented, and with the percentage set
to `100` it is incremented on every tick. -/
theorem errorsPercentage_extremes (c : Config) (ticks : List (Nat × Nat))
    (obs : List Observation) (h : generatorRun c ticks = some obs) :
    (c.ErrorsPercentage = 0 → errorsCount obs = 0) ∧
      (c.ErrorsPercentage = 100 → errorsCount obs = obs.length) := by
  have key := generatorRun_isError_bound c ticks obs h
  constructor
  · intro h0
    unfold errorsCount
    rw [List.countP_eq_zero]
    intro o ho
    obtain ⟨r, hr0, _, hflag⟩ := key o ho
    rw [h0] at hflag
    rw [hflag]
    simp
    omega
  · intro h100
    unfold errorsCount
    rw [List.countP_eq_length]
    intro o ho
    obtain ⟨r, _, hr100, hflag⟩ := key o ho
    rw [h100] at hflag
    rw [hflag]
    simp
    omega

/-- Witness for C8: a one-tick run with the percentage at `0` produced no
error increment. -/
theorem errorsPercentage_extremes_witness :
    errorsCount [Observation.mk 7 false] = 0 :=
  (errorsPercentage_extremes (Config.mk 15 45 0) [(7, 3)]
    [Observation.mk 7 false] (by decide)).1 rfl

/-- C2 counterexample: when cancellation triggers the shutdown and the
serve call then returns the designated sentinel, `httprun.ListenAndServe`
does include the sentinel in the returned error collection, because its
collection loop filters only nil errors. -/
theorem serverClosed_sentinel_counterexample :
    (httprun.ListenAndServe
        { cancelledBeforeServeDone := true,
          serveResult := some GoError.serverClosed,
          shutdownResult := none,
          serveSentFirst := true }).shutdownInvoked = true ∧
      GoError.serverClosed ∈
        (httprun.ListenAndServe
            { cancelledBeforeServeDone := true,
              serveResult := some GoError.serverClosed,
              shutdownResult := none,
              serveSentFirst := true }).errors := by
  decide

/-- C2 amended: it is the error path of `api.Server.Run` that filters the
sentinel: when serve terminates with the sentinel after a shutdown
triggered by lifecycle cancellation, `Run` returns the cancellation error
of the context, never the sentinel. -/
theorem serverClosed_filtered_by_apiServerRun :
    api.ServerRun (some GoError.serverClosed) (some GoError.canceled) =
        some GoError.canceled ∧
      some GoError.canceled ≠ some GoError.serverClosed := by
  decide

/-- C3: when the serve operation returns an error before the lifecycle
context is cancelled, the outcome contains exactly that one error and the
shutdown operation is never invoked. -/
theorem serveFailure_soleError_noShutdown (s : HttprunScenario) (e : GoError)
    (hc : s.cancelledBeforeServeDone = false) (hs : s.serveResult = some e) :
    (httprun.ListenAndServe s).errors = [e] ∧
      (httprun.ListenAndServe s).shutdownInvoked = false := by
  simp [httprun.ListenAndServe, collectErrors, hc, hs]

/-- Witness for C3: a serve operation failing at bind time. -/
theorem serveFailure_soleError_noShutdown_witness :
    (httprun.ListenAndServe
        { cancelledBeforeServeDone := false,
          serveResult := some (GoError.mk "listen and serve"),
          shutdownResult := none,
          serveSentFirst := true }).errors = [GoError.mk "listen and serve"] ∧
      (httprun.ListenAndServe
          { cancelledBeforeServeDone := false,
            serveResult := some (GoError.mk "listen and serve"),
            shutdownResult := none,
            serveSentFirst := true }).shutdownInvoked = false :=
  serveFailure_soleError_noShutdown
    { cancelledBeforeServeDone := false,
      serveResult := some (GoError.mk "listen and serve"),
      shutdownResult := none,
      serveSentFirst := true }
    (GoError.mk "listen and serve") rfl rfl

/-- C4: when the lifecycle context is cancelled while serving and both the
serve and the shutdown operations return errors, both errors appear in the
outcome, whichever operation reported first. -/
theorem cancelledRun_reportsBothErrors (s : HttprunScenario) (e1 e2 : GoError)
    (hc : s.cancelledBeforeServeDone = true)
    (h1 : s.serveResult = some e1) (h2 : s.shutdownResult = some e2) :
    e1 ∈ (httprun.ListenAndServe s).errors ∧
      e2 ∈ (httprun.ListenAndServe s).errors := by
  cases hf : s.serveSentFirst <;>
    simp [httprun.ListenAndServe, collectErrors, hc, h1, h2, hf]

/-- Witness for C4: serve and shutdown both failing after cancellation. -/
theorem cancelledRun_reportsBothErrors_witness :
    GoError.mk "listen and serve" ∈
        (httprun.ListenAndServe
            { cancelledBeforeServeDone := true,
              serveResult := some (GoError.mk "listen and serve"),
              shutdownResult := some (GoError.mk "shutdown"),
              serveSentFirst := true }).errors ∧
      GoError.mk "shutdown" ∈
        (httprun.ListenAndServe
            { cancelledBeforeServeDone := true,
              serveResult := some (GoError.mk "listen and serve"),
              shutdownResult := some (GoError.mk "shutdown"),
              serveSentFirst := true }).errors :=
  cancelledRun_reportsBothErrors
    { cancelledBeforeServeDone := true,
      serveResult := some (GoError.mk "listen and serve"),
      shutdownResult := some (GoError.mk "shutdown"),
      serveSentFirst := true }
    (GoError.mk "listen and serve") (GoError.mk "shutdown") rfl rfl rfl

/-- C9 counterexample: after a successful PUT of the body onefive-comma-
fourfive, the GET response body is the pair followed by a newline, so it
is not the exact string that was written. -/
theorem putGet_durationInterval_counterexample :
    (handleSetDurationInterval Config.zeroValue (ReadBody.ok "15,45")).1 = 200 ∧
      (handleGetDurationInterval
          ((handleSetDurationInterval Config.zeroValue (ReadBody.ok "15,45")).2.2)).2 ≠
        "15,45" := by
  decide

/-- C9 amended: a PUT of the pair succeeds and the following GET renders
exactly the written pair, with the trailing newline the writer appends. -/
theorem putGet_durationInterval_roundTrip :
    (handleSetDurationInterval Config.zeroValue (ReadBody.ok "15,45")).1 = 200 ∧
      handleGetDurationInterval
          ((handleSetDurationInterval Config.zeroValue (ReadBody.ok "15,45")).2.2) =
        (200, "15,45\n") := by
  decide

end MetricsGenerator
